import Mathlib

/-!
Shallow embedding of the AidWatch Event Intake, Correlation, and Notification
Dispatch Engine (packages/api), together with proofs about it.

Sources embedded:
  * the AI correlation batch (`processUnanalyzedEvents`, `findMatchingCrisis`,
    `createCrisisFromAnalysis`, `shouldUpdateCrisisSeverity`, `mapSeverity`,
    `mapCrisisType`, `extractCountry`) from the scheduler/aiService module;
  * the immediate notification sweep (`processImmediateNotifications`) from the
    notification service;
  * the webhook receive endpoint and `processWebhookEvent` from the webhooks
    router, including a concrete SHA-256 / HMAC-SHA256 implementation (the
    code calls Node's `crypto.createHmac('sha256', ...)`) and a model of
    `JSON.parse` / `JSON.stringify` as used by `express.json()` and the
    signature check.

Conventions: JavaScript strings are Lean `String`s; `Date` values are `Int`
milliseconds since the epoch; nullable columns are `Option`; Prisma queries
over a table are functions over a `List` of rows.  Floating point fields
(coordinates, confidence, sentiment) are omitted: no claim touches them.
JSON numbers are restricted to integers and `\uXXXX` string escapes are not
modelled; the concrete payloads in this file stay inside that fragment.
-/

set_option maxRecDepth 4000000

/-! JavaScript string semantics helpers. -/

/-- Does `hay` begin with `needle`? -/
def charsBeginWith : List Char → List Char → Bool
  | _, [] => true
  | [], _ :: _ => false
  | h :: hs, n :: ns => h = n && charsBeginWith hs ns

/-- Does `needle` occur anywhere inside `hay`? -/
def charsOccurs (needle : List Char) : List Char → Bool
  | [] => needle.isEmpty
  | h :: hs => charsBeginWith (h :: hs) needle || charsOccurs needle hs

/-- JS `hay.includes(needle)` (substring test). -/
def jsIncludes (hay needle : String) : Bool :=
  charsOccurs needle.data hay.data

/-- JS `s.toLowerCase()` (restricted to ASCII case mapping; every string the
pipeline compares case-insensitively in this development is ASCII). -/
def jsToLower (s : String) : String := String.mk (s.data.map Char.toLower)

/-- JS `a || b` on strings: `a` unless it is falsy (empty). -/
def jsOrStr (a b : String) : String := if a.isEmpty then b else a

/-- JS `Array.prototype.indexOf`, returning -1 when absent. -/
def jsIndexOf : List String → String → Int
  | [], _ => -1
  | x :: xs, s =>
    if x = s then 0
    else
      let r := jsIndexOf xs s
      if r < 0 then -1 else r + 1

/-- Occurrence removal used by JS `s.replace(pat, '')` with a string pattern:
only the first occurrence is removed.  Auxiliary on character lists. -/
def removeFirstOcc (pat : List Char) : List Char → Option (List Char)
  | [] => none
  | c :: cs =>
    if (c :: cs).take pat.length = pat then some ((c :: cs).drop pat.length)
    else (removeFirstOcc pat cs).map (fun r => c :: r)

/-- JS `s.replace(pat, '')` for a plain string pattern. -/
def jsReplaceFirst (s pat : String) : String :=
  match removeFirstOcc pat.data s.data with
  | some r => String.mk r
  | none => s

/-- Prisma `{ contains: needle, mode: 'insensitive' }` on a nullable text
column: a NULL column never matches. -/
def optContainsCI : Option String → String → Bool
  | none, _ => false
  | some hay, needle => jsIncludes (jsToLower hay) (jsToLower needle)

/-! Domain enumerations (Prisma schema). -/

inductive Severity where
  | UNKNOWN | LOW | MEDIUM | HIGH | CRITICAL
deriving Repr, DecidableEq, Inhabited

/-- The runtime (Prisma / JSON) string value of a `Severity`. -/
def Severity.str : Severity → String
  | .UNKNOWN => "UNKNOWN"
  | .LOW => "LOW"
  | .MEDIUM => "MEDIUM"
  | .HIGH => "HIGH"
  | .CRITICAL => "CRITICAL"

inductive CrisisType where
  | NATURAL_DISASTER | CONFLICT | DISEASE_OUTBREAK | FOOD_SECURITY
  | DISPLACEMENT | INFRASTRUCTURE | ECONOMIC | ENVIRONMENTAL | OTHER
deriving Repr, DecidableEq, Inhabited

inductive CrisisStatus where
  | EMERGING | DEVELOPING | ONGOING | STABILIZING | RESOLVED
deriving Repr, DecidableEq, Inhabited

/-- `mapCrisisType` from the aiService: string-keyed map with fallback OTHER. -/
def mapCrisisType (aiType : String) : CrisisType :=
  if aiType = "NATURAL_DISASTER" then .NATURAL_DISASTER
  else if aiType = "CONFLICT" then .CONFLICT
  else if aiType = "DISEASE_OUTBREAK" then .DISEASE_OUTBREAK
  else if aiType = "FOOD_SECURITY" then .FOOD_SECURITY
  else if aiType = "DISPLACEMENT" then .DISPLACEMENT
  else if aiType = "INFRASTRUCTURE" then .INFRASTRUCTURE
  else if aiType = "ECONOMIC" then .ECONOMIC
  else if aiType = "ENVIRONMENTAL" then .ENVIRONMENTAL
  else .OTHER

/-- `mapSeverity` from the aiService: string-keyed map with fallback UNKNOWN. -/
def mapSeverity (aiSeverity : String) : Severity :=
  if aiSeverity = "CRITICAL" then .CRITICAL
  else if aiSeverity = "HIGH" then .HIGH
  else if aiSeverity = "MEDIUM" then .MEDIUM
  else if aiSeverity = "LOW" then .LOW
  else .UNKNOWN

/-- The `severityOrder` array in `shouldUpdateCrisisSeverity`. -/
def severityOrderList : List String :=
  ["UNKNOWN", "LOW", "MEDIUM", "HIGH", "CRITICAL"]

/-- `shouldUpdateCrisisSeverity(current, incoming)`: compares positions in
`severityOrderList` via `indexOf` (the current Prisma enum value is a string
at runtime). -/
def shouldUpdateCrisisSeverity (current : Severity) (incoming : String) : Bool :=
  jsIndexOf severityOrderList incoming > jsIndexOf severityOrderList current.str

/-- Rank of a severity under the specified order UNKNOWN<LOW<MEDIUM<HIGH<CRITICAL. -/
def severityRank : Severity → Nat
  | .UNKNOWN => 0
  | .LOW => 1
  | .MEDIUM => 2
  | .HIGH => 3
  | .CRITICAL => 4

/-- Maximum of two severities under `severityRank`. -/
def sevMax (a b : Severity) : Severity :=
  if severityRank b ≤ severityRank a then a else b

/-! Correlation engine data model. -/

/-- A persisted `Event` row (float coordinate fields omitted). -/
structure Event where
  id : String
  title : String
  description : String
  location : Option String
  crisisId : Option String
  analyzed : Bool
  publishedAt : Int
deriving Repr, DecidableEq, Inhabited

/-- A `Crisis` row (float fields omitted; `type` keeps its schema name). -/
structure Crisis where
  id : String
  title : String
  description : String
  type : CrisisType
  severity : Severity
  status : CrisisStatus
  location : Option String
  country : Option String
  region : Option String
  tags : List String
  detectedAt : Int
  createdAt : Int
deriving Repr, DecidableEq, Inhabited

/-- `entities` object of the classifier's `AnalysisResult`. -/
structure Entities where
  locations : List String
  organizations : List String
  keywords : List String
deriving Repr, DecidableEq, Inhabited

/-- The classifier's `AnalysisResult` (floats omitted; `severity` is the raw
runtime string, which the TS type constrains to the five severity names). -/
structure AnalysisResult where
  isRelevantCrisis : Bool
  crisisType : String
  severity : String
  summary : String
  entities : Entities
deriving Repr, DecidableEq, Inhabited

/-- The Prisma `where` predicate of `findMatchingCrisis`: open status, equal
type, and location text match.  Extracted classifier locations are tested
against `location`, `country` and `region`; the event's own raw location
(when truthy) is tested against `location` only. -/
def crisisMatchesQuery (locations : List String) (eventLocation : Option String)
    (ctype : CrisisType) (c : Crisis) : Bool :=
  c.type = ctype &&
  (c.status = .EMERGING || c.status = .ONGOING || c.status = .DEVELOPING) &&
  (locations.any (fun loc =>
      optContainsCI c.location loc || optContainsCI c.country loc || optContainsCI c.region loc)
   || (match eventLocation with
       | some l => !l.isEmpty && optContainsCI c.location l
       | none => false))

/-- Keep the later-detected of two crises (first wins ties). -/
def pickMoreRecent (best : Option Crisis) (c : Crisis) : Option Crisis :=
  match best with
  | none => some c
  | some b => if c.detectedAt > b.detectedAt then some c else some b

/-- `orderBy: { detectedAt: 'desc' }, take: 1` over a row list: the first row
carrying the maximal `detectedAt`. -/
def mostRecentlyDetected (cs : List Crisis) : Option Crisis :=
  cs.foldl pickMoreRecent none

/-- `findMatchingCrisis(event, analysis)` over the crisis table. -/
def findMatchingCrisis (crises : List Crisis) (event : Event)
    (analysis : AnalysisResult) : Option Crisis :=
  mostRecentlyDetected
    (crises.filter
      (crisisMatchesQuery analysis.entities.locations event.location
        (mapCrisisType analysis.crisisType)))

/-- `analysis.summary.split('.')[0]`. -/
def firstSentence (s : String) : String :=
  String.mk (s.data.takeWhile (fun c => c ≠ '.'))

/-- `analysis.entities.locations[0] || event.location || 'Unknown Location'`. -/
def primaryLocation (locs : List String) (eventLocation : Option String) : String :=
  jsOrStr (locs.headD "") (jsOrStr (eventLocation.getD "") "Unknown Location")

/-- One JS whitespace character (the ASCII part of the regex class `\s`;
the exotic Unicode spaces are outside this model). -/
def isJsSpace (c : Char) : Bool :=
  c = ' ' || c = '\t' || c = '\n' || c = '\r' || c.toNat = 11 || c.toNat = 12

/-- One capitalised word `[A-Z][a-z]+`. -/
def capWord (s : String) : Bool :=
  match s.data with
  | c :: rest => c.isUpper && !rest.isEmpty && rest.all (fun x => x.isLower)
  | [] => false

/-- Split a character list at every separator character (adjacent separators
yield empty parts, like `String.split`). -/
def splitChars (p : Char → Bool) : List Char → List (List Char)
  | [] => [[]]
  | c :: cs =>
    if p c then [] :: splitChars p cs
    else
      match splitChars p cs with
      | x :: xs => (c :: x) :: xs
      | [] => [[c]]

/-- The regex test `/^[A-Z][a-z]+(\s[A-Z][a-z]+)*$/.test(loc)`. -/
def countryLikeTest (s : String) : Bool :=
  let parts := (splitChars isJsSpace s.data).map String.mk
  !parts.isEmpty && parts.all capWord

/-- `extractCountry(locations)` from the aiService. -/
def extractCountry (locations : List String) : Option String :=
  (locations.filter (fun loc => countryLikeTest loc && loc.length < 30)).head?

/-- `createCrisisFromAnalysis(event, analysis)`: the created `Crisis` row.
`newId` is the id chosen by the store, `now` the creation timestamp
(`detectedAt` and `createdAt` default to the current time). -/
def createCrisisFromAnalysis (newId : String) (now : Int) (event : Event)
    (analysis : AnalysisResult) : Crisis :=
  { id := newId
    title := jsOrStr (firstSentence analysis.summary) event.title
    description := analysis.summary
    type := mapCrisisType analysis.crisisType
    severity := mapSeverity analysis.severity
    status := .EMERGING
    location := some (primaryLocation analysis.entities.locations event.location)
    country := extractCountry analysis.entities.locations
    region := none
    tags := analysis.entities.keywords.take 10
    detectedAt := now
    createdAt := now }

/-- Outcome of processing one event in the analysis batch. -/
inductive CorrelationOutcome where
  | skippedStale
  | skippedNotRelevant
  | errored
  | linked (crisisId : String)
  | created (crisisId : String)
deriving Repr, DecidableEq, Inhabited

/-- Result of one iteration of the `processUnanalyzedEvents` loop. -/
structure StepResult where
  event : Event
  crises : List Crisis
  classifierCalled : Bool
  outcome : CorrelationOutcome
deriving Repr, DecidableEq, Inhabited

def msPerDay : Int := 86400000

/-- The body of the `processUnanalyzedEvents` per-event loop.  `classify` is
the external classifier (`analyzeContent`), modelled as a fallible call;
`newCrisisId` is the id the store would assign to a crisis created in this
iteration.  The staleness cutoff `now - 30 days` models
`thirtyDaysAgo.setDate(getDate() - 30)` on a UTC clock. -/
def processEvent (now : Int) (classify : String → Except String AnalysisResult)
    (newCrisisId : String) (crises : List Crisis) (event : Event) : StepResult :=
  if event.publishedAt < now - 30 * msPerDay then
    { event := { event with analyzed := true }, crises := crises
      classifierCalled := false, outcome := .skippedStale }
  else
    match classify (event.title ++ "\n\n" ++ event.description) with
    | .error _ =>
      { event := { event with analyzed := true }, crises := crises
        classifierCalled := true, outcome := .errored }
    | .ok analysis =>
      if !analysis.isRelevantCrisis then
        { event := { event with analyzed := true }, crises := crises
          classifierCalled := true, outcome := .skippedNotRelevant }
      else
        match findMatchingCrisis crises event analysis with
        | some existing =>
          { event := { event with crisisId := some existing.id, analyzed := true }
            crises :=
              if shouldUpdateCrisisSeverity existing.severity analysis.severity then
                crises.map (fun c =>
                  if c.id = existing.id then { c with severity := mapSeverity analysis.severity }
                  else c)
              else crises
            classifierCalled := true
            outcome := .linked existing.id }
        | none =>
          { event := { event with crisisId := some newCrisisId, analyzed := true }
            crises := crises ++ [createCrisisFromAnalysis newCrisisId now event analysis]
            classifierCalled := true
            outcome := .created newCrisisId }

/-- Insertion into a list kept sorted by `publishedAt` descending. -/
def insertByPublishedDesc (e : Event) : List Event → List Event
  | [] => [e]
  | x :: xs =>
    if e.publishedAt ≥ x.publishedAt then e :: x :: xs
    else x :: insertByPublishedDesc e xs

/-- `orderBy: { publishedAt: 'desc' }`. -/
def sortByPublishedDesc (l : List Event) : List Event :=
  l.foldr insertByPublishedDesc []

/-- The batch selection query of `processUnanalyzedEvents`:
`where: { crisisId: null }, orderBy: { publishedAt: 'desc' }, take: batchSize`.
Note the filter tests only `crisisId`, not the `analyzed` flag. -/
def selectUnanalyzedBatch (events : List Event) (batchSize : Nat) : List Event :=
  (sortByPublishedDesc (events.filter (fun e => e.crisisId.isNone))).take batchSize

/-- The crisis-matching predicate as the specification sentence words it: the
crisis's location, country, or region contains, case-insensitively, one of
the classifier's extracted locations or the Event's own raw location string.
Declared for comparison with `crisisMatchesQuery`, which is taken from the
code. -/
def specCrisisMatches (locations : List String) (eventLocation : Option String)
    (ctype : CrisisType) (c : Crisis) : Bool :=
  c.type = ctype &&
  (c.status = .EMERGING || c.status = .ONGOING || c.status = .DEVELOPING) &&
  ((locations ++ eventLocation.toList).any (fun loc =>
      optContainsCI c.location loc || optContainsCI c.country loc || optContainsCI c.region loc))

/-- `severityOrder` folded over a crisis's incoming classified severities:
the crisis severity after one linking step (lines raising severity only when
`shouldUpdateCrisisSeverity` holds). -/
def applyIncomingSeverity (current : Severity) (incoming : String) : Severity :=
  if shouldUpdateCrisisSeverity current incoming then mapSeverity incoming else current

/-- Crisis severity after a sequence of correlated events' classified
severities has been applied in order. -/
def crisisSeverityAfter (init : Severity) (incomings : List String) : Severity :=
  incomings.foldl applyIncomingSeverity init

/-! Notification dispatcher data model (notification service). -/

inductive NotificationFreq where
  | IMMEDIATE | DAILY | WEEKLY
deriving Repr, DecidableEq, Inhabited

inductive EmailStatus where
  | PENDING | SENT | FAILED | BOUNCED
deriving Repr, DecidableEq, Inhabited

/-- An `AlertSubscription` row (fields used by the immediate sweep). -/
structure AlertSubscription where
  id : String
  email : String
  regions : List String
  crisisTypes : List CrisisType
  minSeverity : Severity
  frequency : NotificationFreq
  isActive : Bool
  emailVerified : Bool
deriving Repr, DecidableEq, Inhabited

/-- A `SentNotification` ledger row. -/
structure SentNotification where
  subscriptionId : String
  crisisId : String
  subject : String
  content : String
  status : EmailStatus
deriving Repr, DecidableEq, Inhabited

/-- The `severityOrder` record of the notification service. -/
def severityToNumber : Severity → Nat
  | .UNKNOWN => 0
  | .LOW => 1
  | .MEDIUM => 2
  | .HIGH => 3
  | .CRITICAL => 4

/-- The subscriber-matching predicate of the immediate sweep (region,
crisis-type and minimum-severity checks). -/
def subscriberMatchesCrisis (sub : AlertSubscription) (c : Crisis) : Bool :=
  let crisisRegion := c.region.getD ""
  (sub.regions.isEmpty ||
     sub.regions.any (fun r => jsIncludes (jsToLower crisisRegion) (jsToLower r))) &&
  (sub.crisisTypes.isEmpty || sub.crisisTypes.contains c.type) &&
  (severityToNumber sub.minSeverity ≤ severityToNumber c.severity)

/-- The crisis selection of the immediate sweep: created within the trailing
hour and severity in MEDIUM/HIGH/CRITICAL. -/
def immediateCrises (now : Int) (crises : List Crisis) : List Crisis :=
  crises.filter (fun c =>
    now - 3600000 ≤ c.createdAt &&
    (c.severity = .MEDIUM || c.severity = .HIGH || c.severity = .CRITICAL))

/-- The subscriber selection of the immediate sweep: active, verified,
IMMEDIATE frequency. -/
def immediateSubs (subs : List AlertSubscription) : List AlertSubscription :=
  subs.filter (fun s => s.isActive && s.emailVerified && s.frequency = .IMMEDIATE)

/-- `sentNotification.findFirst({ subscriptionId, crisisId })`: note the
status is not part of the lookup. -/
def hasNotificationRow (ledger : List SentNotification) (subId cId : String) : Bool :=
  ledger.any (fun n => n.subscriptionId = subId && n.crisisId = cId)

/-- Mutable state threaded through one immediate sweep: the ledger table plus
the delivery attempts (email sends) performed so far in this sweep. -/
structure SweepState where
  ledger : List SentNotification
  attempts : List (String × String)
deriving Repr, DecidableEq, Inhabited

/-- Body of the per-(crisis, subscriber) loop of the immediate sweep: skip if
a ledger row for the pair exists (any status); otherwise create a PENDING
row, attempt delivery, and finalise it as SENT or FAILED.  `sendOk` models
the email transport outcome for a pair. -/
def notifyStep (sendOk : String → String → Bool) (st : SweepState)
    (c : Crisis) (sub : AlertSubscription) : SweepState :=
  if hasNotificationRow st.ledger sub.id c.id then st
  else
    { ledger := st.ledger ++
        [{ subscriptionId := sub.id, crisisId := c.id
           subject := "Crisis Alert: " ++ c.title
           content := c.description
           status := if sendOk sub.id c.id then .SENT else .FAILED }]
      attempts := st.attempts ++ [(sub.id, c.id)] }

/-- `processImmediateNotifications()`: for each recent crisis, for each
matching immediate subscriber, run `notifyStep`. -/
def processImmediateNotifications (now : Int) (crises : List Crisis)
    (subs : List AlertSubscription) (sendOk : String → String → Bool)
    (ledger0 : List SentNotification) : SweepState :=
  (immediateCrises now crises).foldl
    (fun st c =>
      ((immediateSubs subs).filter (fun s => subscriberMatchesCrisis s c)).foldl
        (fun st sub => notifyStep sendOk st c sub) st)
    { ledger := ledger0, attempts := [] }

/-- The (crisis, subscriber) pairs one immediate sweep visits, in order. -/
def sweepPairs (now : Int) (crises : List Crisis) (subs : List AlertSubscription) :
    List (Crisis × AlertSubscription) :=
  (immediateCrises now crises).flatMap
    (fun c => ((immediateSubs subs).filter (fun s => subscriberMatchesCrisis s c)).map
      (fun s => (c, s)))

/-- Number of ledger rows for one (subscription, crisis) pair. -/
def pairCount (ledger : List SentNotification) (subId cId : String) : Nat :=
  (ledger.filter (fun n => n.subscriptionId = subId && n.crisisId = cId)).length

/-! SHA-256 and HMAC-SHA256 over byte lists (bytes are `Nat < 256`),
following FIPS 180-4 / RFC 2104; this is the `crypto.createHmac('sha256', …)`
call of the webhook router. -/

def add32 (a b : Nat) : Nat := (a + b) % 4294967296

def rotr32 (x n : Nat) : Nat := ((x >>> n) ||| (x <<< (32 - n))) % 4294967296

/-- The 64 round constants of FIPS 180-4, written in decimal. -/
def shaK : List Nat :=
  [1116352408, 1899447441, 3049323471, 3921009573, 961987163, 1508970993,
   2453635748, 2870763221, 3624381080, 310598401, 607225278, 1426881987,
   1925078388, 2162078206, 2614888103, 3248222580, 3835390401, 4022224774,
   264347078, 604807628, 770255983, 1249150122, 1555081692, 1996064986,
   2554220882, 2821834349, 2952996808, 3210313671, 3336571891, 3584528711,
   113926993, 338241895, 666307205, 773529912, 1294757372, 1396182291,
   1695183700, 1986661051, 2177026350, 2456956037, 2730485921, 2820302411,
   3259730800, 3345764771, 3516065817, 3600352804, 4094571909, 275423344,
   430227734, 506948616, 659060556, 883997877, 958139571, 1322822218,
   1537002063, 1747873779, 1955562222, 2024104815, 2227730452, 2361852424,
   2428436474, 2756734187, 3204031479, 3329325298]

/-- The initial hash state of FIPS 180-4, written in decimal. -/
def shaH0 : List Nat :=
  [1779033703, 3144134277, 1013904242, 2773480762, 1359893119,
   2600822924, 528734635, 1541459225]

def bigSigma0 (x : Nat) : Nat := (rotr32 x 2) ^^^ (rotr32 x 13) ^^^ (rotr32 x 22)
def bigSigma1 (x : Nat) : Nat := (rotr32 x 6) ^^^ (rotr32 x 11) ^^^ (rotr32 x 25)
def smallSigma0 (x : Nat) : Nat := (rotr32 x 7) ^^^ (rotr32 x 18) ^^^ (x >>> 3)
def smallSigma1 (x : Nat) : Nat := (rotr32 x 17) ^^^ (rotr32 x 19) ^^^ (x >>> 10)
def chFn (x y z : Nat) : Nat := (x &&& y) ^^^ ((x ^^^ 4294967295) &&& z)
def majFn (x y z : Nat) : Nat := (x &&& y) ^^^ (x &&& z) ^^^ (y &&& z)

/-- Split a byte list into chunks of `n` bytes (accumulator form so the
definition is structurally recursive and kernel-evaluable). -/
def chunkAux (n : Nat) : List Nat → List Nat → List (List Nat)
  | [], acc => if acc.isEmpty then [] else [acc]
  | c :: cs, acc =>
    let acc2 := acc ++ [c]
    if acc2.length = n then acc2 :: chunkAux n cs [] else chunkAux n cs acc2

def chunkList (n : Nat) (l : List Nat) : List (List Nat) := chunkAux n l []

def beWord : List Nat → Nat
  | [a, b, c, d] => a * 16777216 + b * 65536 + c * 256 + d
  | _ => 0

def word4bytes (w : Nat) : List Nat :=
  [w / 16777216 % 256, w / 65536 % 256, w / 256 % 256, w % 256]

/-- SHA-256 message schedule: extend 16 words to 64. -/
def schedule (w16 : List Nat) : List Nat :=
  (List.range 48).foldl
    (fun w _ =>
      w ++ [add32
        (add32 (smallSigma1 (w.getD (w.length - 2) 0)) (w.getD (w.length - 7) 0))
        (add32 (smallSigma0 (w.getD (w.length - 15) 0)) (w.getD (w.length - 16) 0))])
    w16

def compressRound (w : List Nat) (st : List Nat) (t : Nat) : List Nat :=
  match st with
  | [a, b, c, d, e, f, g, hh] =>
    let t1 := add32 hh (add32 (bigSigma1 e) (add32 (chFn e f g) (add32 (shaK.getD t 0) (w.getD t 0))))
    let t2 := add32 (bigSigma0 a) (majFn a b c)
    [add32 t1 t2, a, b, c, add32 d t1, e, f, g]
  | st => st

def compress (h : List Nat) (block : List Nat) : List Nat :=
  let w := schedule ((chunkList 4 block).map beWord)
  let st := (List.range 64).foldl (compressRound w) h
  List.zipWith add32 h st

def padMessage (msg : List Nat) : List Nat :=
  let z := (119 - (msg.length % 64)) % 64
  let bitLen := msg.length * 8
  msg ++ [0x80] ++ List.replicate z 0 ++
    [bitLen / 72057594037927936 % 256, bitLen / 281474976710656 % 256,
     bitLen / 1099511627776 % 256, bitLen / 4294967296 % 256,
     bitLen / 16777216 % 256, bitLen / 65536 % 256, bitLen / 256 % 256, bitLen % 256]

def sha256 (msg : List Nat) : List Nat :=
  ((chunkList 64 (padMessage msg)).foldl compress shaH0).flatMap word4bytes

def hmacSha256 (key msg : List Nat) : List Nat :=
  let k := if key.length > 64 then sha256 key else key
  let k64 := k ++ List.replicate (64 - k.length) 0
  let ipadded := k64.map (fun b => b ^^^ 0x36)
  let opadded := k64.map (fun b => b ^^^ 0x5c)
  sha256 (opadded ++ sha256 (ipadded ++ msg))

def hexDigit (n : Nat) : Char :=
  if n < 10 then Char.ofNat (48 + n) else Char.ofNat (87 + n)

/-- Lowercase hex encoding (`digest('hex')`). -/
def toHex (bytes : List Nat) : String :=
  String.mk (bytes.flatMap (fun b => [hexDigit (b / 16), hexDigit (b % 16)]))

/-- UTF-8 encoding of one code point. -/
def utf8Encode (c : Nat) : List Nat :=
  if c < 128 then [c]
  else if c < 2048 then [192 + c / 64, 128 + c % 64]
  else if c < 65536 then [224 + c / 4096, 128 + (c / 64) % 64, 128 + c % 64]
  else [240 + c / 262144, 128 + (c / 4096) % 64, 128 + (c / 64) % 64, 128 + c % 64]

/-- `Buffer.from(s)`: the UTF-8 bytes of a JS string. -/
def strToBytes (s : String) : List Nat := s.data.flatMap (fun ch => utf8Encode ch.toNat)

/-- `crypto.createHmac('sha256', secret).update(msg).digest('hex')`. -/
def hmacSha256Hex (secret msg : String) : String :=
  toHex (hmacSha256 (strToBytes secret) (strToBytes msg))

/-- `crypto.timingSafeEqual(Buffer.from(a), Buffer.from(b))`: `none` models
the `RangeError` thrown when the byte lengths differ. -/
def timingSafeEqualStr (a b : String) : Option Bool :=
  if (strToBytes a).length = (strToBytes b).length then
    some (decide (strToBytes a = strToBytes b))
  else none

/-! JSON values, `JSON.stringify` and `JSON.parse` (the fragment used by the
webhook pipeline: `express.json()` parses the raw body; the signature check
re-serialises it). -/

inductive Json where
  | jnull
  | jbool (b : Bool)
  | jnum (n : Int)
  | jstr (s : String)
  | jarr (elems : List Json)
  | jobj (fields : List (String × Json))
deriving Repr, Inhabited

def lbraceChar : Char := Char.ofNat 123
def rbraceChar : Char := Char.ofNat 125

def escChar (c : Char) : String :=
  if c = '"' then "\\\""
  else if c = '\\' then "\\\\"
  else if c = '\n' then "\\n"
  else if c = '\t' then "\\t"
  else if c = '\r' then "\\r"
  else if c.toNat = 8 then "\\b"
  else if c.toNat = 12 then "\\f"
  else if c.toNat < 32 then "\\u00" ++ String.mk [hexDigit (c.toNat / 16), hexDigit (c.toNat % 16)]
  else String.mk [c]

def escapeJsonString (s : String) : String :=
  "\"" ++ String.join (s.data.map escChar) ++ "\""

mutual

/-- `JSON.stringify` (compact form, as called with a single argument). -/
def stringifyJson : Json → String
  | .jnull => "null"
  | .jbool true => "true"
  | .jbool false => "false"
  | .jnum n => toString n
  | .jstr s => escapeJsonString s
  | .jarr xs => "[" ++ stringifyElems xs ++ "]"
  | .jobj fs => String.mk [lbraceChar] ++ stringifyFields fs ++ String.mk [rbraceChar]

def stringifyElems : List Json → String
  | [] => ""
  | [x] => stringifyJson x
  | x :: y :: xs => stringifyJson x ++ "," ++ stringifyElems (y :: xs)

def stringifyFields : List (String × Json) → String
  | [] => ""
  | [(k, v)] => escapeJsonString k ++ ":" ++ stringifyJson v
  | (k, v) :: kv :: xs => escapeJsonString k ++ ":" ++ stringifyJson v ++ "," ++ stringifyFields (kv :: xs)

end

def skipWs : List Char → List Char
  | [] => []
  | c :: cs => if c = ' ' || c = '\n' || c = '\t' || c = '\r' then skipWs cs else c :: cs

def digitsToNat (ds : List Char) : Nat :=
  ds.foldl (fun acc c => acc * 10 + (c.toNat - 48)) 0

/-- JSON string-literal body (after the opening quote), fuel-bounded. -/
def readStringBody : Nat → List Char → Option (String × List Char)
  | 0, _ => none
  | _, [] => none
  | fuel+1, c :: rest =>
    if c = '"' then some ("", rest)
    else if c = '\\' then
      match rest with
      | [] => none
      | e :: rest2 =>
        let esc : Option Char :=
          if e = '"' then some '"'
          else if e = '\\' then some '\\'
          else if e = '/' then some '/'
          else if e = 'n' then some '\n'
          else if e = 't' then some '\t'
          else if e = 'r' then some '\r'
          else if e = 'b' then some (Char.ofNat 8)
          else if e = 'f' then some (Char.ofNat 12)
          else none
        match esc with
        | some ch => (readStringBody fuel rest2).map (fun sr => (String.mk (ch :: sr.1.data), sr.2))
        | none => none
    else (readStringBody fuel rest).map (fun sr => (String.mk (c :: sr.1.data), sr.2))

mutual

/-- One JSON value, fuel-bounded recursive descent. -/
def readJsonVal : Nat → List Char → Option (Json × List Char)
  | 0, _ => none
  | fuel+1, cs0 =>
    match skipWs cs0 with
    | [] => none
    | c :: rest =>
      if c = 'n' then
        match rest with
        | 'u' :: 'l' :: 'l' :: r => some (.jnull, r)
        | _ => none
      else if c = 't' then
        match rest with
        | 'r' :: 'u' :: 'e' :: r => some (.jbool true, r)
        | _ => none
      else if c = 'f' then
        match rest with
        | 'a' :: 'l' :: 's' :: 'e' :: r => some (.jbool false, r)
        | _ => none
      else if c = '"' then
        (readStringBody (fuel + 1) rest).map (fun sr => (.jstr sr.1, sr.2))
      else if c = '-' then
        match rest.span Char.isDigit with
        | (ds, r) => if ds.isEmpty then none else some (.jnum (-(digitsToNat ds : Int)), r)
      else if c.isDigit then
        match (c :: rest).span Char.isDigit with
        | (ds, r) => some (.jnum (digitsToNat ds), r)
      else if c = '[' then
        match skipWs rest with
        | ']' :: r => some (.jarr [], r)
        | r2 => (readArrElems fuel r2).map (fun er => (.jarr er.1, er.2))
      else if c = lbraceChar then
        let r := skipWs rest
        if r.head? = some rbraceChar then some (.jobj [], r.tail)
        else (readObjFields fuel r).map (fun fr => (.jobj fr.1, fr.2))
      else none

def readArrElems : Nat → List Char → Option (List Json × List Char)
  | 0, _ => none
  | fuel+1, cs =>
    match readJsonVal fuel cs with
    | none => none
    | some (v, rest) =>
      match skipWs rest with
      | ',' :: r2 => (readArrElems fuel r2).map (fun er => (v :: er.1, er.2))
      | ']' :: r2 => some ([v], r2)
      | _ => none

def readObjFields : Nat → List Char → Option (List (String × Json) × List Char)
  | 0, _ => none
  | fuel+1, cs =>
    match skipWs cs with
    | '"' :: r =>
      match readStringBody (fuel + 1) r with
      | none => none
      | some (k, r2) =>
        match skipWs r2 with
        | ':' :: r3 =>
          match readJsonVal fuel r3 with
          | none => none
          | some (v, r4) =>
            match skipWs r4 with
            | ',' :: r5 => (readObjFields fuel r5).map (fun fr => ((k, v) :: fr.1, fr.2))
            | r5 =>
              if r5.head? = some rbraceChar then some ([(k, v)], r5.tail)
              else none
        | _ => none
    | _ => none

end

/-- `JSON.parse`, total via generous fuel; `none` is a parse failure. -/
def jsonParse (s : String) : Option Json :=
  match readJsonVal (s.length + 1) s.data with
  | some (j, rest) => if (skipWs rest).isEmpty then some j else none
  | none => none

/-! Webhook data model (webhooks router). -/

inductive WebhookEventStatus where
  | PENDING | PROCESSING | SUCCESS | FAILED | SKIPPED
deriving Repr, DecidableEq, Inhabited

/-- A `Webhook` row: one registered ingestion endpoint.  The source-kind tag
and counters are carried by the surrounding state where needed; the source
shape normalisers (`parseGDACSWebhook` etc.) are outside the claims and are
abstracted as the already-normalised input of `processWebhookEvent`. -/
structure Webhook where
  id : String
  name : String
  endpoint : String
  secret : String
  isActive : Bool
  keywords : List String
  regions : List String
  minSeverity : Option String
deriving Repr, DecidableEq, Inhabited

/-- A stored `WebhookEvent` row (payload kept as its stringified snapshot;
raw headers omitted). -/
structure StoredWebhookEvent where
  id : String
  webhookId : String
  payloadStringified : String
  status : WebhookEventStatus
deriving Repr, DecidableEq, Inhabited

inductive RecvError where
  | webhookNotFound
  | webhookInactive
  | invalidSignature
  | timingSafeLengthError
  | bodyNotJson
deriving Repr, DecidableEq, Inhabited

inductive RecvOutcome where
  | accepted (eventId : String)
  | rejected (e : RecvError)
deriving Repr, DecidableEq, Inhabited

/-- Result of the receive endpoint: HTTP outcome, the `WebhookEvent` table
after the request, and the increment applied to the endpoint's
`totalEvents` counter. -/
structure RecvResult where
  outcome : RecvOutcome
  store : List StoredWebhookEvent
  totalEventsDelta : Nat
deriving Repr, DecidableEq, Inhabited

/-- `POST /receive/:endpoint`.  `signatureHeader` is the value of
`x-webhook-signature` / `x-hub-signature-256` when present.  The HMAC is
computed over `JSON.stringify(req.body)`, where `req.body` is the JSON value
`express.json()` parsed from the raw body; a malformed body is rejected by
that middleware before the handler runs (`bodyNotJson`). -/
def receiveWebhook (webhooks : List Webhook) (store : List StoredWebhookEvent)
    (newEventId : String) (endpoint : String) (rawBody : String)
    (signatureHeader : Option String) : RecvResult :=
  match webhooks.find? (fun w => w.endpoint == endpoint) with
  | none => { outcome := .rejected .webhookNotFound, store := store, totalEventsDelta := 0 }
  | some webhook =>
    if !webhook.isActive then
      { outcome := .rejected .webhookInactive, store := store, totalEventsDelta := 0 }
    else
      match jsonParse rawBody with
      | none => { outcome := .rejected .bodyNotJson, store := store, totalEventsDelta := 0 }
      | some body =>
        let stored : RecvResult :=
          { outcome := .accepted newEventId
            store := store ++
              [{ id := newEventId, webhookId := webhook.id
                 payloadStringified := stringifyJson body, status := .PENDING }]
            totalEventsDelta := 1 }
        match signatureHeader with
        | none => stored
        | some signature =>
          let expectedSig := hmacSha256Hex webhook.secret (stringifyJson body)
          let providedSig := jsReplaceFirst signature "sha256="
          match timingSafeEqualStr expectedSig providedSig with
          | none => { outcome := .rejected .timingSafeLengthError, store := store, totalEventsDelta := 0 }
          | some false => { outcome := .rejected .invalidSignature, store := store, totalEventsDelta := 0 }
          | some true => stored

/-- Normalised signal produced by the source-shape switch of
`processWebhookEvent` (float coordinates omitted). -/
structure EventData where
  title : String
  description : String
  source : String
  location : Option String
  publishedAt : Option Int
deriving Repr, DecidableEq, Inhabited

/-- Final state of one `processWebhookEvent` run. -/
structure WebhookProcessResult where
  status : WebhookEventStatus
  error : Option String
  eventId : Option String
  eventCreated : Bool
  classifierCalled : Bool
  failedEventsDelta : Nat
deriving Repr, DecidableEq, Inhabited

/-- The 4-element `severityOrder` array of the webhook min-severity check. -/
def webhookSeverityOrder : List String := ["LOW", "MEDIUM", "HIGH", "CRITICAL"]

/-- `processWebhookEvent(eventId, webhook)` after the source-shape switch:
`parsed` is the normaliser output (`none` = unparseable), `persistEvent` the
outcome of `prisma.event.create` (the outer catch turns its failure into
FAILED plus a `failedEvents` increment), `classify` the `analyzeContent`
call, whose failure is swallowed by the inner catch.  `newEventId` is the id
of the created `Event` row. -/
def processWebhookEvent (webhook : Webhook) (parsed : Option EventData)
    (newEventId : String) (persistEvent : Except String Unit)
    (classify : String → Except String AnalysisResult) : WebhookProcessResult :=
  match parsed with
  | none =>
    { status := .SKIPPED, error := some "Could not parse webhook payload"
      eventId := none, eventCreated := false, classifierCalled := false
      failedEventsDelta := 0 }
  | some d =>
    if webhook.keywords.length > 0 &&
       !(webhook.keywords.any (fun k =>
           jsIncludes (jsToLower (d.title ++ " " ++ d.description)) (jsToLower k))) then
      { status := .SKIPPED, error := some "No matching keywords"
        eventId := none, eventCreated := false, classifierCalled := false
        failedEventsDelta := 0 }
    else if webhook.regions.length > 0 && !(d.location.getD "").isEmpty &&
            !(webhook.regions.any (fun r =>
                jsIncludes (jsToLower (d.location.getD "")) (jsToLower r))) then
      { status := .SKIPPED, error := some "No matching regions"
        eventId := none, eventCreated := false, classifierCalled := false
        failedEventsDelta := 0 }
    else
      match persistEvent with
      | .error msg =>
        { status := .FAILED, error := some msg
          eventId := none, eventCreated := false, classifierCalled := false
          failedEventsDelta := 1 }
      | .ok _ =>
        match classify (d.title ++ "\n\n" ++ d.description) with
        | .error _ =>
          { status := .SUCCESS, error := none
            eventId := some newEventId, eventCreated := true, classifierCalled := true
            failedEventsDelta := 0 }
        | .ok analysis =>
          match webhook.minSeverity with
          | some minSev =>
            if jsIndexOf webhookSeverityOrder analysis.severity <
               jsIndexOf webhookSeverityOrder minSev then
              { status := .SUCCESS
                error := some ("Severity " ++ analysis.severity ++ " below threshold " ++ minSev)
                eventId := some newEventId, eventCreated := true, classifierCalled := true
                failedEventsDelta := 0 }
            else
              { status := .SUCCESS, error := none
                eventId := some newEventId, eventCreated := true, classifierCalled := true
                failedEventsDelta := 0 }
          | none =>
            { status := .SUCCESS, error := none
              eventId := some newEventId, eventCreated := true, classifierCalled := true
              failedEventsDelta := 0 }

/-! Concrete fixture values used to evaluate the definitions. -/

/-- An open CONFLICT crisis whose `country` (not `location`) contains the
text "Sudan". -/
def crisisCountrySudan : Crisis :=
  { id := "c1", title := "Conflict in South Sudan", description := "d"
    type := .CONFLICT, severity := .HIGH, status := .EMERGING
    location := none, country := some "South Sudan", region := none
    tags := [], detectedAt := 0, createdAt := 0 }

/-- An event whose raw location string is "Sudan". -/
def eventRawSudan : Event :=
  { id := "e1", title := "Clashes reported", description := "desc"
    location := some "Sudan", crisisId := none, analyzed := false
    publishedAt := 0 }

/-- A relevant CONFLICT classification with no extracted locations. -/
def analysisNoLocs : AnalysisResult :=
  { isRelevantCrisis := true, crisisType := "CONFLICT", severity := "HIGH"
    summary := "Armed clashes escalate. Aid access is limited."
    entities := { locations := [], organizations := [], keywords := ["conflict"] } }

/-- A not-relevant classification. -/
def analysisNotRelevant : AnalysisResult :=
  { isRelevantCrisis := false, crisisType := "OTHER", severity := "UNKNOWN"
    summary := "General news."
    entities := { locations := [], organizations := [], keywords := [] } }

/-- Two open NATURAL_DISASTER crises in Jonglei, detected at different times. -/
def crisisJongleiOld : Crisis :=
  { id := "cOld", title := "Jonglei floods", description := "d"
    type := .NATURAL_DISASTER, severity := .MEDIUM, status := .ONGOING
    location := some "Jonglei", country := some "South Sudan", region := some "Jonglei"
    tags := [], detectedAt := 5, createdAt := 5 }

def crisisJongleiNew : Crisis :=
  { id := "cNew", title := "Jonglei floods again", description := "d"
    type := .NATURAL_DISASTER, severity := .MEDIUM, status := .EMERGING
    location := some "Jonglei", country := some "South Sudan", region := some "Jonglei"
    tags := [], detectedAt := 10, createdAt := 10 }

/-- A relevant NATURAL_DISASTER classification locating Jonglei. -/
def analysisJonglei : AnalysisResult :=
  { isRelevantCrisis := true, crisisType := "NATURAL_DISASTER", severity := "CRITICAL"
    summary := "Severe flooding in Jonglei. Displacement rising."
    entities := { locations := ["Jonglei"], organizations := [], keywords := ["flood"] } }

/-- A fresh flood event in Jonglei. -/
def eventJonglei : Event :=
  { id := "e2", title := "Flooding in Jonglei", description := "Heavy rains"
    location := some "Jonglei", crisisId := none, analyzed := false
    publishedAt := 0 }

/-- A recent HIGH severity crisis for the notification sweep. -/
def crisisForAlert : Crisis :=
  { id := "cr1", title := "Flood", description := "Flood situation"
    type := .NATURAL_DISASTER, severity := .HIGH, status := .EMERGING
    location := some "Jonglei", country := some "South Sudan", region := some "Jonglei"
    tags := [], detectedAt := 0, createdAt := 0 }

/-- A verified, active immediate subscriber matching everything. -/
def subAll : AlertSubscription :=
  { id := "s1", email := "a@example.org", regions := [], crisisTypes := []
    minSeverity := .LOW, frequency := .IMMEDIATE, isActive := true
    emailVerified := true }

/-- A FAILED ledger row for the (subAll, crisisForAlert) pair. -/
def failedRowFixture : SentNotification :=
  { subscriptionId := "s1", crisisId := "cr1", subject := "x", content := ""
    status := .FAILED }

/-- A registered, active webhook with no filter policy. -/
def webhookPlain : Webhook :=
  { id := "w1", name := "Custom hook", endpoint := "wh_c6", secret := "whsec_c6"
    isActive := true, keywords := [], regions := [], minSeverity := none }

/-- A registered, active webhook demanding minimum severity HIGH. -/
def webhookMinHigh : Webhook :=
  { id := "w9", name := "Severe only", endpoint := "wh_c9", secret := "whsec_c9"
    isActive := true, keywords := [], regions := [], minSeverity := some "HIGH" }

/-- A normalised webhook signal. -/
def eventDataFixture : EventData :=
  { title := "Flooding in Jonglei", description := "Heavy rains"
    source := "src", location := some "Jonglei", publishedAt := none }

/-- A relevant LOW severity classification. -/
def analysisLow : AnalysisResult :=
  { isRelevantCrisis := true, crisisType := "NATURAL_DISASTER", severity := "LOW"
    summary := "Minor flooding."
    entities := { locations := ["Jonglei"], organizations := [], keywords := [] } }

/-- The webhook used by the receive-endpoint examples. -/
def recvWebhook : Webhook :=
  { id := "w7", name := "hook", endpoint := "wh_recv", secret := "whsec_demo"
    isActive := true, keywords := [], regions := [], minSeverity := none }

/-- A raw JSON request body containing formatting whitespace. -/
def rawBodyFixture : String := "\x7b\"title\": \"Flood in Jonglei\", \"mag\": 5\x7d"

/-- The JSON value `express.json()` parses from `rawBodyFixture`. -/
def parsedBodyFixture : Json :=
  .jobj [("title", .jstr "Flood in Jonglei"), ("mag", .jnum 5)]

/-- A signature computed over the raw body bytes (as the spec's signature
scheme prescribes). -/
def sigOverRawBytes : String := hmacSha256Hex recvWebhook.secret rawBodyFixture

/-- The (subscription id, crisis id) keys of a pair list. -/
def pairKeys (P : List (Crisis × AlertSubscription)) : List (String × String) :=
  P.map (fun p => (p.2.id, p.1.id))

/-- An event published 31 days before the epoch reference instant. -/
def staleEventFixture : Event :=
  { id := "e4", title := "Old report", description := "d"
    location := none, crisisId := none, analyzed := false
    publishedAt := -(31 * msPerDay) }

/-- A relevant event with neither extracted locations nor a raw location. -/
def eventNoLoc : Event :=
  { id := "e10", title := "Displacement rising", description := "desc"
    location := none, crisisId := none, analyzed := false
    publishedAt := 0 }

/-- A relevant CONFLICT classification with no extracted locations (used with
`eventNoLoc`). -/
def analysisConflictNoLocs : AnalysisResult :=
  { isRelevantCrisis := true, crisisType := "CONFLICT", severity := "MEDIUM"
    summary := "Displacement rising in the region."
    entities := { locations := [], organizations := [], keywords := [] } }

/-- A 64-character signature value that is certainly not the expected digest. -/
def sig64zeros : String := String.mk (List.replicate 64 '0')

/-! Severity algebra lemmas. -/

theorem applyIncomingSeverity_eq_sevMax (cur inc : Severity) :
    applyIncomingSeverity cur inc.str = sevMax cur inc := by
  cases cur <;> cases inc <;> rfl

theorem severityRank_le_sevMax_left (a b : Severity) :
    severityRank a ≤ severityRank (sevMax a b) := by
  cases a <;> cases b <;> decide

theorem severityRank_le_sevMax_right (a b : Severity) :
    severityRank b ≤ severityRank (sevMax a b) := by
  cases a <;> cases b <;> decide

theorem sevMax_unknown_left (a : Severity) : sevMax .UNKNOWN a = a := by
  cases a <;> rfl

theorem crisisSeverityAfter_eq_foldl (init : Severity) (l : List Severity) :
    crisisSeverityAfter init (l.map Severity.str) = l.foldl sevMax init := by
  induction l generalizing init with
  | nil => rfl
  | cons s rest ih =>
    simp only [List.map_cons, crisisSeverityAfter, List.foldl_cons] at *
    rw [applyIncomingSeverity_eq_sevMax]
    exact ih (sevMax init s)

theorem severityRank_le_foldl_sevMax (init : Severity) (l : List Severity) :
    severityRank init ≤ severityRank (l.foldl sevMax init) := by
  induction l generalizing init with
  | nil => exact le_refl _
  | cons s rest ih =>
    exact le_trans (severityRank_le_sevMax_left init s) (ih (sevMax init s))

theorem severityRank_mem_le_foldl_sevMax (l : List Severity) (init : Severity) :
    ∀ s ∈ l, severityRank s ≤ severityRank (l.foldl sevMax init) := by
  induction l generalizing init with
  | nil => intro s hs; cases hs
  | cons a rest ih =>
    intro s hs
    rcases List.mem_cons.mp hs with rfl | hmem
    · exact le_trans (severityRank_le_sevMax_right init s)
        (severityRank_le_foldl_sevMax (sevMax init s) rest)
    · exact ih (sevMax init a) s hmem

/-- C2: for any sequence of classified severities applied to a crisis, the
final severity is the maximum, under UNKNOWN<LOW<MEDIUM<HIGH<CRITICAL, of the
initial severity and all incoming severities; it dominates the initial value
and every input, and a step changes nothing unless the incoming severity is
strictly higher than the current one. -/
theorem crisis_severity_is_max_of_inputs :
    ∀ (init : Severity) (l : List Severity),
      crisisSeverityAfter init (l.map Severity.str) =
        (init :: l).foldl sevMax .UNKNOWN ∧
      severityRank init ≤
        severityRank (crisisSeverityAfter init (l.map Severity.str)) ∧
      (∀ s ∈ l, severityRank s ≤
        severityRank (crisisSeverityAfter init (l.map Severity.str))) ∧
      (∀ cur inc : Severity, severityRank inc ≤ severityRank cur →
        applyIncomingSeverity cur inc.str = cur) := by
  intro init l
  have hfold : crisisSeverityAfter init (l.map Severity.str) = l.foldl sevMax init :=
    crisisSeverityAfter_eq_foldl init l
  refine ⟨?_, ?_, ?_, ?_⟩
  · rw [hfold, List.foldl_cons, sevMax_unknown_left]
  · rw [hfold]; exact severityRank_le_foldl_sevMax init l
  · rw [hfold]; exact severityRank_mem_le_foldl_sevMax l init
  · intro cur inc h
    revert h
    cases cur <;> cases inc <;> decide

theorem crisis_severity_is_max_of_inputs_witness :
    crisisSeverityAfter .LOW ([Severity.HIGH, .MEDIUM].map Severity.str) =
      ([Severity.LOW, .HIGH, .MEDIUM]).foldl sevMax .UNKNOWN ∧
    severityRank Severity.MEDIUM ≤
      severityRank (crisisSeverityAfter .LOW ([Severity.HIGH, .MEDIUM].map Severity.str)) ∧
    applyIncomingSeverity .HIGH (Severity.MEDIUM).str = .HIGH :=
  ⟨(crisis_severity_is_max_of_inputs .LOW [.HIGH, .MEDIUM]).1,
   (crisis_severity_is_max_of_inputs .LOW [.HIGH, .MEDIUM]).2.2.1 .MEDIUM (by decide),
   (crisis_severity_is_max_of_inputs .LOW [.HIGH, .MEDIUM]).2.2.2 .HIGH .MEDIUM (by decide)⟩

/-- C4: an event whose `publishedAt` lies more than 30 days before the batch
instant is marked analyzed with its null crisis link untouched; the crisis
table is unchanged and the classifier is never invoked, whatever it would
have returned. -/
theorem stale_event_bypasses_classifier :
    ∀ (now : Int) (classify : String → Except String AnalysisResult)
      (newCrisisId : String) (crises : List Crisis) (event : Event),
      event.publishedAt < now - 30 * msPerDay →
      event.crisisId = none →
      (processEvent now classify newCrisisId crises event).event.analyzed = true ∧
      (processEvent now classify newCrisisId crises event).event.crisisId = none ∧
      (processEvent now classify newCrisisId crises event).crises = crises ∧
      (processEvent now classify newCrisisId crises event).classifierCalled = false ∧
      (processEvent now classify newCrisisId crises event).outcome = .skippedStale := by
  intro now classify newCrisisId crises event hstale hnull
  simp [processEvent, if_pos hstale, hnull]

theorem stale_event_bypasses_classifier_witness :
    staleEventFixture.publishedAt < 0 - 30 * msPerDay ∧
    (processEvent 0 (fun _ => .ok analysisJonglei) "n1" [crisisJongleiNew]
        staleEventFixture).event.analyzed = true ∧
    (processEvent 0 (fun _ => .ok analysisJonglei) "n1" [crisisJongleiNew]
        staleEventFixture).crises = [crisisJongleiNew] ∧
    (processEvent 0 (fun _ => .ok analysisJonglei) "n1" [crisisJongleiNew]
        staleEventFixture).classifierCalled = false :=
  ⟨by decide,
   (stale_event_bypasses_classifier 0 (fun _ => .ok analysisJonglei) "n1"
      [crisisJongleiNew] staleEventFixture (by decide) (by decide)).1,
   (stale_event_bypasses_classifier 0 (fun _ => .ok analysisJonglei) "n1"
      [crisisJongleiNew] staleEventFixture (by decide) (by decide)).2.2.1,
   (stale_event_bypasses_classifier 0 (fun _ => .ok analysisJonglei) "n1"
      [crisisJongleiNew] staleEventFixture (by decide) (by decide)).2.2.2.1⟩

/-- C5: the batch query of `processUnanalyzedEvents` filters on
`crisisId: null` only, not on the `analyzed` flag, so an event that one run
marked `analyzed = true` with a null crisis link (here: judged not relevant)
is selected again by the next run's query and the classifier is invoked for
it again. -/
theorem analyzed_unlinked_event_reselected :
    (processEvent 0 (fun _ => .ok analysisNotRelevant) "n1" [] eventJonglei).event.analyzed
        = true ∧
    (processEvent 0 (fun _ => .ok analysisNotRelevant) "n1" [] eventJonglei).event.crisisId
        = none ∧
    (processEvent 0 (fun _ => .ok analysisNotRelevant) "n1" [] eventJonglei).event ∈
      selectUnanalyzedBatch
        [(processEvent 0 (fun _ => .ok analysisNotRelevant) "n1" [] eventJonglei).event] 10 ∧
    (processEvent 0 (fun _ => .ok analysisNotRelevant) "n1" []
        (processEvent 0 (fun _ => .ok analysisNotRelevant) "n1" [] eventJonglei).event).classifierCalled
        = true := by
  decide

/-! Correlation engine lemmas. -/

theorem foldl_pickMoreRecent_spec (l : List Crisis) (b : Crisis) :
    ∃ c, l.foldl pickMoreRecent (some b) = some c ∧ (c = b ∨ c ∈ l) ∧
      b.detectedAt ≤ c.detectedAt ∧ ∀ x ∈ l, x.detectedAt ≤ c.detectedAt := by
  induction l generalizing b with
  | nil =>
    exact ⟨b, rfl, Or.inl rfl, le_refl _, by intro x hx; cases hx⟩
  | cons a rest ih =>
    simp only [List.foldl_cons, pickMoreRecent]
    by_cases h : a.detectedAt > b.detectedAt
    · rw [if_pos h]
      obtain ⟨c, hc, hmem, hle, hall⟩ := ih a
      refine ⟨c, hc, ?_, le_trans (le_of_lt h) hle, ?_⟩
      · rcases hmem with rfl | hm
        · exact Or.inr (List.mem_cons_self _ _)
        · exact Or.inr (List.mem_cons_of_mem _ hm)
      · intro x hx
        rcases List.mem_cons.mp hx with rfl | hx2
        · exact hle
        · exact hall x hx2
    · rw [if_neg h]
      obtain ⟨c, hc, hmem, hle, hall⟩ := ih b
      refine ⟨c, hc, ?_, hle, ?_⟩
      · rcases hmem with rfl | hm
        · exact Or.inl rfl
        · exact Or.inr (List.mem_cons_of_mem _ hm)
      · intro x hx
        rcases List.mem_cons.mp hx with rfl | hx2
        · exact le_trans (le_of_not_lt h) hle
        · exact hall x hx2

theorem mostRecentlyDetected_spec (l : List Crisis) (c : Crisis) :
    mostRecentlyDetected l = some c →
    c ∈ l ∧ ∀ x ∈ l, x.detectedAt ≤ c.detectedAt := by
  cases l with
  | nil => intro h; cases h
  | cons a rest =>
    intro h
    rw [mostRecentlyDetected, List.foldl_cons] at h
    obtain ⟨c', hc', hmem, hle, hall⟩ := foldl_pickMoreRecent_spec rest a
    have hca : pickMoreRecent none a = some a := rfl
    rw [hca, hc'] at h
    cases h
    constructor
    · rcases hmem with rfl | hm
      · exact List.mem_cons_self _ _
      · exact List.mem_cons_of_mem _ hm
    · intro x hx
      rcases List.mem_cons.mp hx with rfl | hx2
      · exact hle
      · exact hall x hx2

theorem findMatchingCrisis_some_spec (crises : List Crisis) (event : Event)
    (analysis : AnalysisResult) (c : Crisis) :
    findMatchingCrisis crises event analysis = some c →
    c ∈ crises ∧
    crisisMatchesQuery analysis.entities.locations event.location
      (mapCrisisType analysis.crisisType) c = true ∧
    ∀ c' ∈ crises,
      crisisMatchesQuery analysis.entities.locations event.location
        (mapCrisisType analysis.crisisType) c' = true →
      c'.detectedAt ≤ c.detectedAt := by
  intro h
  rw [findMatchingCrisis] at h
  obtain ⟨hmem, hall⟩ := mostRecentlyDetected_spec _ _ h
  obtain ⟨hmem2, hq⟩ := List.mem_filter.mp hmem
  exact ⟨hmem2, hq, fun c' hc' hq' => hall c' (List.mem_filter.mpr ⟨hc', hq'⟩)⟩

theorem findMatchingCrisis_none_of_no_match (crises : List Crisis) (event : Event)
    (analysis : AnalysisResult) :
    (∀ c ∈ crises,
      crisisMatchesQuery analysis.entities.locations event.location
        (mapCrisisType analysis.crisisType) c = false) →
    findMatchingCrisis crises event analysis = none := by
  intro h
  rw [findMatchingCrisis]
  have : crises.filter
      (crisisMatchesQuery analysis.entities.locations event.location
        (mapCrisisType analysis.crisisType)) = [] := by
    rw [List.filter_eq_nil_iff]
    intro a ha
    simp [h a ha]
  rw [this]
  rfl

/-- C10: a relevant classification with an empty extracted-locations list for
an event with no raw location matches no crisis at all (the disjunction in
the matching query is empty), so the event always creates a new crisis, even
when an open crisis of the same type exists. -/
theorem no_locations_creates_new_crisis :
    ∀ (now : Int) (classify : String → Except String AnalysisResult)
      (newCrisisId : String) (crises : List Crisis) (event : Event)
      (analysis : AnalysisResult),
      classify (event.title ++ "\n\n" ++ event.description) = .ok analysis →
      ¬ event.publishedAt < now - 30 * msPerDay →
      analysis.isRelevantCrisis = true →
      analysis.entities.locations = [] →
      event.location = none →
      findMatchingCrisis crises event analysis = none ∧
      (processEvent now classify newCrisisId crises event).outcome = .created newCrisisId ∧
      (processEvent now classify newCrisisId crises event).crises =
        crises ++ [createCrisisFromAnalysis newCrisisId now event analysis] ∧
      (processEvent now classify newCrisisId crises event).event.crisisId = some newCrisisId := by
  intro now classify newCrisisId crises event analysis hcl hstale hrel hlocs hevloc
  have hnone : findMatchingCrisis crises event analysis = none := by
    apply findMatchingCrisis_none_of_no_match
    intro c _
    simp [crisisMatchesQuery, hlocs, hevloc]
  refine ⟨hnone, ?_, ?_, ?_⟩ <;>
    simp [processEvent, if_neg hstale, hcl, hrel, hnone]

theorem no_locations_creates_new_crisis_witness :
    findMatchingCrisis [crisisCountrySudan] eventNoLoc analysisConflictNoLocs = none ∧
    (processEvent 0 (fun _ => .ok analysisConflictNoLocs) "n10" [crisisCountrySudan]
        eventNoLoc).outcome = .created "n10" ∧
    (processEvent 0 (fun _ => .ok analysisConflictNoLocs) "n10" [crisisCountrySudan]
        eventNoLoc).crises =
      [crisisCountrySudan] ++
        [createCrisisFromAnalysis "n10" 0 eventNoLoc analysisConflictNoLocs] :=
  ⟨(no_locations_creates_new_crisis 0 (fun _ => .ok analysisConflictNoLocs) "n10"
      [crisisCountrySudan] eventNoLoc analysisConflictNoLocs rfl (by decide) rfl rfl rfl).1,
   (no_locations_creates_new_crisis 0 (fun _ => .ok analysisConflictNoLocs) "n10"
      [crisisCountrySudan] eventNoLoc analysisConflictNoLocs rfl (by decide) rfl rfl rfl).2.1,
   (no_locations_creates_new_crisis 0 (fun _ => .ok analysisConflictNoLocs) "n10"
      [crisisCountrySudan] eventNoLoc analysisConflictNoLocs rfl (by decide) rfl rfl rfl).2.2.1⟩

/-- C1 fails as stated: the claim lets the event's raw location string match
the crisis's `country` (or `region`), but the query tests the raw location
against `location` only.  Concretely, a crisis whose `country` contains
"Sudan" satisfies the claim's match predicate for an event with raw location
"Sudan" and no extracted locations, yet the code finds no match and creates
a new crisis instead of linking. -/
theorem raw_location_not_matched_against_country :
    specCrisisMatches analysisNoLocs.entities.locations eventRawSudan.location
      (mapCrisisType analysisNoLocs.crisisType) crisisCountrySudan = true ∧
    findMatchingCrisis [crisisCountrySudan] eventRawSudan analysisNoLocs = none ∧
    (processEvent 0 (fun _ => .ok analysisNoLocs) "new1" [crisisCountrySudan]
        eventRawSudan).outcome = .created "new1" := by
  decide

/-- C1 (amended): the search is over open crises of the classified type whose
`location`, `country` or `region` contains an extracted classifier location,
or whose `location` alone contains the event's (non-empty) raw location; a
found match is one of the qualifying crises with maximal `detectedAt`, and
the event is linked to it; if no crisis qualifies, a new EMERGING crisis is
created with title from the first sentence of the summary (falling back to
the event title) and location from the first extracted location or the raw
event location, and the event is linked to it. -/
theorem correlation_links_or_creates :
    ∀ (now : Int) (classify : String → Except String AnalysisResult)
      (newCrisisId : String) (crises : List Crisis) (event : Event)
      (analysis : AnalysisResult),
      classify (event.title ++ "\n\n" ++ event.description) = .ok analysis →
      ¬ event.publishedAt < now - 30 * msPerDay →
      analysis.isRelevantCrisis = true →
      ((∀ c ∈ crises,
          crisisMatchesQuery analysis.entities.locations event.location
            (mapCrisisType analysis.crisisType) c = false) →
        (processEvent now classify newCrisisId crises event).outcome = .created newCrisisId ∧
        (processEvent now classify newCrisisId crises event).crises =
          crises ++ [createCrisisFromAnalysis newCrisisId now event analysis] ∧
        (processEvent now classify newCrisisId crises event).event.crisisId = some newCrisisId ∧
        (createCrisisFromAnalysis newCrisisId now event analysis).status = .EMERGING ∧
        (createCrisisFromAnalysis newCrisisId now event analysis).title =
          jsOrStr (firstSentence analysis.summary) event.title ∧
        (createCrisisFromAnalysis newCrisisId now event analysis).location =
          some (primaryLocation analysis.entities.locations event.location)) ∧
      (∀ c, findMatchingCrisis crises event analysis = some c →
        c ∈ crises ∧
        crisisMatchesQuery analysis.entities.locations event.location
          (mapCrisisType analysis.crisisType) c = true ∧
        (∀ c' ∈ crises,
          crisisMatchesQuery analysis.entities.locations event.location
            (mapCrisisType analysis.crisisType) c' = true →
          c'.detectedAt ≤ c.detectedAt) ∧
        (processEvent now classify newCrisisId crises event).outcome = .linked c.id ∧
        (processEvent now classify newCrisisId crises event).event.crisisId = some c.id) := by
  intro now classify newCrisisId crises event analysis hcl hstale hrel
  constructor
  · intro hnomatch
    have hnone : findMatchingCrisis crises event analysis = none :=
      findMatchingCrisis_none_of_no_match crises event analysis hnomatch
    refine ⟨?_, ?_, ?_, rfl, rfl, rfl⟩ <;>
      simp [processEvent, if_neg hstale, hcl, hrel, hnone]
  · intro c hsome
    obtain ⟨hmem, hq, hmax⟩ := findMatchingCrisis_some_spec crises event analysis c hsome
    refine ⟨hmem, hq, hmax, ?_, ?_⟩ <;>
      simp [processEvent, if_neg hstale, hcl, hrel, hsome]

theorem correlation_links_or_creates_witness :
    findMatchingCrisis [crisisJongleiOld, crisisJongleiNew] eventJonglei analysisJonglei =
      some crisisJongleiNew ∧
    crisisJongleiOld.detectedAt ≤ crisisJongleiNew.detectedAt ∧
    (processEvent 0 (fun _ => .ok analysisJonglei) "n2"
        [crisisJongleiOld, crisisJongleiNew] eventJonglei).outcome = .linked "cNew" ∧
    (processEvent 0 (fun _ => .ok analysisJonglei) "n2"
        [crisisJongleiOld, crisisJongleiNew] eventJonglei).event.crisisId = some "cNew" :=
  ⟨by decide,
   ((correlation_links_or_creates 0 (fun _ => .ok analysisJonglei) "n2"
        [crisisJongleiOld, crisisJongleiNew] eventJonglei analysisJonglei rfl (by decide)
        rfl).2 crisisJongleiNew (by decide)).2.2.1 crisisJongleiOld (by decide) (by decide),
   ((correlation_links_or_creates 0 (fun _ => .ok analysisJonglei) "n2"
        [crisisJongleiOld, crisisJongleiNew] eventJonglei analysisJonglei rfl (by decide)
        rfl).2 crisisJongleiNew (by decide)).2.2.2.1,
   ((correlation_links_or_creates 0 (fun _ => .ok analysisJonglei) "n2"
        [crisisJongleiOld, crisisJongleiNew] eventJonglei analysisJonglei rfl (by decide)
        rfl).2 crisisJongleiNew (by decide)).2.2.2.2⟩

/-! Immediate notification sweep lemmas. -/

theorem hasNotificationRow_true_iff (ledger : List SentNotification) (s c : String) :
    hasNotificationRow ledger s c = true ↔ 0 < pairCount ledger s c := by
  unfold hasNotificationRow pairCount
  rw [List.any_eq_true]
  constructor
  · rintro ⟨n, hn, hp⟩
    have hmem : n ∈ ledger.filter (fun n => n.subscriptionId = s && n.crisisId = c) :=
      List.mem_filter.mpr ⟨hn, hp⟩
    exact List.length_pos.mpr (List.ne_nil_of_mem hmem)
  · intro hlen
    obtain ⟨n, hn⟩ := List.exists_mem_of_ne_nil _ (List.length_pos.mp hlen)
    obtain ⟨hmem, hp⟩ := List.mem_filter.mp hn
    exact ⟨n, hmem, hp⟩

theorem hasNotificationRow_false_iff (ledger : List SentNotification) (s c : String) :
    hasNotificationRow ledger s c = false ↔ pairCount ledger s c = 0 := by
  rw [← Bool.not_eq_true, hasNotificationRow_true_iff]
  omega

theorem pairCount_append (l1 l2 : List SentNotification) (s c : String) :
    pairCount (l1 ++ l2) s c = pairCount l1 s c + pairCount l2 s c := by
  simp [pairCount, List.filter_append]

theorem notifyStep_pairCount (sendOk : String → String → Bool) (st : SweepState)
    (c0 : Crisis) (sub : AlertSubscription) (s c : String) :
    pairCount (notifyStep sendOk st c0 sub).ledger s c =
      if pairCount st.ledger s c = 0 ∧ (s, c) = (sub.id, c0.id) then 1
      else pairCount st.ledger s c := by
  rw [notifyStep]
  by_cases hrow : hasNotificationRow st.ledger sub.id c0.id = true
  · rw [if_pos hrow]
    have hpos : 0 < pairCount st.ledger sub.id c0.id :=
      (hasNotificationRow_true_iff _ _ _).mp hrow
    by_cases hkey : (s, c) = (sub.id, c0.id)
    · have hs : s = sub.id := congrArg Prod.fst hkey
      have hc : c = c0.id := congrArg Prod.snd hkey
      subst hs; subst hc
      rw [if_neg (fun h => absurd h.1 (by omega))]
    · rw [if_neg (fun h => hkey h.2)]
  · rw [if_neg hrow]
    have hzero : pairCount st.ledger sub.id c0.id = 0 :=
      (hasNotificationRow_false_iff _ _ _).mp (Bool.not_eq_true _ ▸ hrow)
    simp only [pairCount_append]
    by_cases hkey : (s, c) = (sub.id, c0.id)
    · have hs : s = sub.id := congrArg Prod.fst hkey
      have hc : c = c0.id := congrArg Prod.snd hkey
      subst hs; subst hc
      rw [hzero]
      simp [pairCount, List.filter_cons]
    · have hkey2 : ¬ (s = sub.id ∧ c = c0.id) := by
        rw [Prod.mk.injEq] at hkey
        exact hkey
      have hone : pairCount
          [{ subscriptionId := sub.id, crisisId := c0.id
             subject := "Crisis Alert: " ++ c0.title, content := c0.description
             status := if sendOk sub.id c0.id then .SENT else .FAILED }] s c = 0 := by
        simp only [pairCount, List.filter_cons, List.filter_nil]
        have hf : ¬ (sub.id = s ∧ c0.id = c) := by
          intro h
          exact hkey2 ⟨h.1.symm, h.2.symm⟩
        simp [hf]
      rw [hone, if_neg (fun h => hkey h.2)]
      omega

theorem foldl_notifyStep_pairCount (sendOk : String → String → Bool)
    (P : List (Crisis × AlertSubscription)) (st : SweepState) (s c : String) :
    pairCount (P.foldl (fun st p => notifyStep sendOk st p.1 p.2) st).ledger s c =
      if pairCount st.ledger s c = 0 ∧ (s, c) ∈ pairKeys P then 1
      else pairCount st.ledger s c := by
  induction P generalizing st with
  | nil => simp [pairKeys]
  | cons p rest ih =>
    rw [List.foldl_cons, ih, notifyStep_pairCount]
    by_cases hkey : (s, c) = (p.2.id, p.1.id)
    · by_cases h0 : pairCount st.ledger s c = 0
      · have hinner : (if pairCount st.ledger s c = 0 ∧ (s, c) = (p.2.id, p.1.id)
            then 1 else pairCount st.ledger s c) = 1 := if_pos ⟨h0, hkey⟩
        have hmc : (s, c) ∈ pairKeys (p :: rest) := by
          rw [hkey]
          exact List.mem_cons_self _ _
        have houtL : (if (1 : Nat) = 0 ∧ (s, c) ∈ pairKeys rest then 1 else 1) = 1 :=
          if_neg (fun h => absurd h.1 (by omega))
        have houtR : (if pairCount st.ledger s c = 0 ∧ (s, c) ∈ pairKeys (p :: rest)
            then 1 else pairCount st.ledger s c) = 1 := if_pos ⟨h0, hmc⟩
        rw [hinner, houtL, houtR]
      · have hinner : (if pairCount st.ledger s c = 0 ∧ (s, c) = (p.2.id, p.1.id)
            then 1 else pairCount st.ledger s c) = pairCount st.ledger s c :=
          if_neg (fun h => h0 h.1)
        have houtL : (if pairCount st.ledger s c = 0 ∧ (s, c) ∈ pairKeys rest
            then 1 else pairCount st.ledger s c) = pairCount st.ledger s c :=
          if_neg (fun h => h0 h.1)
        have houtR : (if pairCount st.ledger s c = 0 ∧ (s, c) ∈ pairKeys (p :: rest)
            then 1 else pairCount st.ledger s c) = pairCount st.ledger s c :=
          if_neg (fun h => h0 h.1)
        rw [hinner, houtL, houtR]
    · have hinner : (if pairCount st.ledger s c = 0 ∧ (s, c) = (p.2.id, p.1.id)
          then 1 else pairCount st.ledger s c) = pairCount st.ledger s c :=
        if_neg (fun h => hkey h.2)
      rw [hinner]
      have hiff : ((s, c) ∈ pairKeys (p :: rest)) ↔ ((s, c) ∈ pairKeys rest) := by
        show ((s, c) ∈ (p.2.id, p.1.id) :: pairKeys rest) ↔ _
        rw [List.mem_cons]
        exact ⟨fun h => h.resolve_left hkey, Or.inr⟩
      by_cases hm : (s, c) ∈ pairKeys rest
      · by_cases h0 : pairCount st.ledger s c = 0
        · have houtL : (if pairCount st.ledger s c = 0 ∧ (s, c) ∈ pairKeys rest
              then 1 else pairCount st.ledger s c) = 1 := if_pos ⟨h0, hm⟩
          have houtR : (if pairCount st.ledger s c = 0 ∧ (s, c) ∈ pairKeys (p :: rest)
              then 1 else pairCount st.ledger s c) = 1 := if_pos ⟨h0, hiff.mpr hm⟩
          rw [houtL, houtR]
        · have houtL : (if pairCount st.ledger s c = 0 ∧ (s, c) ∈ pairKeys rest
              then 1 else pairCount st.ledger s c) = pairCount st.ledger s c :=
            if_neg (fun h => h0 h.1)
          have houtR : (if pairCount st.ledger s c = 0 ∧ (s, c) ∈ pairKeys (p :: rest)
              then 1 else pairCount st.ledger s c) = pairCount st.ledger s c :=
            if_neg (fun h => h0 h.1)
          rw [houtL, houtR]
      · have houtL : (if pairCount st.ledger s c = 0 ∧ (s, c) ∈ pairKeys rest
            then 1 else pairCount st.ledger s c) = pairCount st.ledger s c :=
          if_neg (fun h => hm h.2)
        have houtR : (if pairCount st.ledger s c = 0 ∧ (s, c) ∈ pairKeys (p :: rest)
            then 1 else pairCount st.ledger s c) = pairCount st.ledger s c :=
          if_neg (fun h => hm (hiff.mp h.2))
        rw [houtL, houtR]

theorem foldl_notifyStep_covers (sendOk : String → String → Bool)
    (P : List (Crisis × AlertSubscription)) (st : SweepState) :
    ∀ p ∈ P, hasNotificationRow
      ((P.foldl (fun st p => notifyStep sendOk st p.1 p.2) st).ledger) p.2.id p.1.id = true := by
  intro p hp
  rw [hasNotificationRow_true_iff, foldl_notifyStep_pairCount]
  have hmem : (p.2.id, p.1.id) ∈ pairKeys P := List.mem_map_of_mem _ hp
  by_cases h0 : pairCount st.ledger p.2.id p.1.id = 0
  · rw [if_pos ⟨h0, hmem⟩]; omega
  · rw [if_neg (by intro h; exact h0 h.1)]; omega

theorem foldl_notifyStep_stable (sendOk : String → String → Bool)
    (P : List (Crisis × AlertSubscription)) (st : SweepState) :
    (∀ p ∈ P, hasNotificationRow st.ledger p.2.id p.1.id = true) →
    P.foldl (fun st p => notifyStep sendOk st p.1 p.2) st = st := by
  induction P generalizing st with
  | nil => intro _; rfl
  | cons p rest ih =>
    intro h
    rw [List.foldl_cons]
    have hstep : notifyStep sendOk st p.1 p.2 = st := by
      rw [notifyStep, if_pos (h p (List.mem_cons_self _ _))]
    rw [hstep]
    exact ih st (fun q hq => h q (List.mem_cons_of_mem _ hq))

theorem foldl_notifyStep_attempts_blocked (sendOk : String → String → Bool)
    (P : List (Crisis × AlertSubscription)) (st : SweepState) (s c : String) :
    hasNotificationRow st.ledger s c = true →
    (((s, c) ∈ (P.foldl (fun st p => notifyStep sendOk st p.1 p.2) st).attempts) ↔
      (s, c) ∈ st.attempts) := by
  induction P generalizing st with
  | nil => intro _; exact Iff.rfl
  | cons p rest ih =>
    intro hrow
    rw [List.foldl_cons]
    by_cases h : hasNotificationRow st.ledger p.2.id p.1.id = true
    · have hstep : notifyStep sendOk st p.1 p.2 = st := by rw [notifyStep, if_pos h]
      rw [hstep]
      exact ih st hrow
    · have hne : (s, c) ≠ (p.2.id, p.1.id) := by
        intro he
        have hs : s = p.2.id := congrArg Prod.fst he
        have hc : c = p.1.id := congrArg Prod.snd he
        subst hs; subst hc
        exact h hrow
      have hstep : notifyStep sendOk st p.1 p.2 =
          { ledger := st.ledger ++
              [{ subscriptionId := p.2.id, crisisId := p.1.id
                 subject := "Crisis Alert: " ++ p.1.title, content := p.1.description
                 status := if sendOk p.2.id p.1.id then .SENT else .FAILED }]
            attempts := st.attempts ++ [(p.2.id, p.1.id)] } := by
        rw [notifyStep, if_neg h]
      rw [hstep]
      have hrow2 : hasNotificationRow
          (st.ledger ++
            [{ subscriptionId := p.2.id, crisisId := p.1.id
               subject := "Crisis Alert: " ++ p.1.title, content := p.1.description
               status := if sendOk p.2.id p.1.id then .SENT else .FAILED }]) s c = true := by
        rw [hasNotificationRow_true_iff] at hrow ⊢
        rw [pairCount_append]
        omega
      rw [ih _ hrow2]
      simp only [List.mem_append, List.mem_singleton]
      exact ⟨fun hor => hor.resolve_right hne, Or.inl⟩

theorem foldl_flatMap_eq {α β γ : Type} (f : γ → β → γ) (g : α → List β)
    (l : List α) (init : γ) :
    (l.flatMap g).foldl f init = l.foldl (fun acc a => (g a).foldl f acc) init := by
  induction l generalizing init with
  | nil => rfl
  | cons a rest ih => rw [List.flatMap_cons, List.foldl_append, ih, List.foldl_cons]

theorem sweep_eq_foldl_pairs (now : Int) (crises : List Crisis)
    (subs : List AlertSubscription) (sendOk : String → String → Bool)
    (ledger0 : List SentNotification) :
    processImmediateNotifications now crises subs sendOk ledger0 =
      (sweepPairs now crises subs).foldl
        (fun st p => notifyStep sendOk st p.1 p.2) { ledger := ledger0, attempts := [] } := by
  rw [processImmediateNotifications, sweepPairs, foldl_flatMap_eq]
  congr 1
  funext st c
  rw [List.foldl_map]

/-- C3: running the immediate sweep twice over an unchanged crisis and
subscriber set adds nothing in the second pass (same ledger, no delivery
attempts); one sweep never leaves more than one row per pair that had none,
and creates exactly one row per matching (subscription, crisis) pair; and a
pre-existing ledger row for a pair — whatever its status — prevents any
delivery attempt for that pair. -/
theorem immediate_sweep_exactly_once :
    ∀ (now : Int) (crises : List Crisis) (subs : List AlertSubscription)
      (sendOk : String → String → Bool) (ledger0 : List SentNotification),
      (processImmediateNotifications now crises subs sendOk
          (processImmediateNotifications now crises subs sendOk ledger0).ledger).ledger =
        (processImmediateNotifications now crises subs sendOk ledger0).ledger ∧
      (processImmediateNotifications now crises subs sendOk
          (processImmediateNotifications now crises subs sendOk ledger0).ledger).attempts = [] ∧
      (∀ s c, pairCount ledger0 s c = 0 →
        pairCount (processImmediateNotifications now crises subs sendOk ledger0).ledger s c ≤ 1) ∧
      (∀ cr ∈ immediateCrises now crises, ∀ sub ∈ immediateSubs subs,
        subscriberMatchesCrisis sub cr = true →
        pairCount ledger0 sub.id cr.id = 0 →
        pairCount (processImmediateNotifications now crises subs sendOk ledger0).ledger
          sub.id cr.id = 1) ∧
      (∀ n ∈ ledger0, (n.subscriptionId, n.crisisId) ∉
        (processImmediateNotifications now crises subs sendOk ledger0).attempts) := by
  intro now crises subs sendOk ledger0
  have hP1 := sweep_eq_foldl_pairs now crises subs sendOk ledger0
  have hcov : ∀ p ∈ sweepPairs now crises subs,
      hasNotificationRow (processImmediateNotifications now crises subs sendOk ledger0).ledger
        p.2.id p.1.id = true := by
    intro p hp
    rw [hP1]
    exact foldl_notifyStep_covers sendOk _ _ p hp
  have hP2 := sweep_eq_foldl_pairs now crises subs sendOk
    (processImmediateNotifications now crises subs sendOk ledger0).ledger
  have hstable : processImmediateNotifications now crises subs sendOk
      (processImmediateNotifications now crises subs sendOk ledger0).ledger =
      { ledger := (processImmediateNotifications now crises subs sendOk ledger0).ledger
        attempts := [] } := by
    rw [hP2]
    exact foldl_notifyStep_stable sendOk _ _ hcov
  refine ⟨?_, ?_, ?_, ?_, ?_⟩
  · rw [hstable]
  · rw [hstable]
  · intro s c h0
    rw [hP1, foldl_notifyStep_pairCount]
    by_cases hm : (s, c) ∈ pairKeys (sweepPairs now crises subs)
    · rw [if_pos ⟨h0, hm⟩]
    · rw [if_neg (fun h => hm h.2)]
      exact Nat.le_of_eq h0 |>.trans (by omega)
  · intro cr hcr sub hsub hmatch h0
    have hpair : (cr, sub) ∈ sweepPairs now crises subs := by
      rw [sweepPairs]
      exact List.mem_flatMap.mpr ⟨cr, hcr,
        List.mem_map.mpr ⟨sub, List.mem_filter.mpr ⟨hsub, hmatch⟩, rfl⟩⟩
    have hm : (sub.id, cr.id) ∈ pairKeys (sweepPairs now crises subs) :=
      List.mem_map_of_mem _ hpair
    rw [hP1, foldl_notifyStep_pairCount]
    rw [if_pos ⟨h0, hm⟩]
  · intro n hn hmem
    have hrow : hasNotificationRow ledger0 n.subscriptionId n.crisisId = true := by
      rw [hasNotificationRow_true_iff]
      have : n ∈ ledger0.filter
          (fun m => m.subscriptionId = n.subscriptionId && m.crisisId = n.crisisId) :=
        List.mem_filter.mpr ⟨hn, by simp⟩
      exact List.length_pos.mpr (List.ne_nil_of_mem this)
    rw [hP1] at hmem
    have := (foldl_notifyStep_attempts_blocked sendOk (sweepPairs now crises subs)
      { ledger := ledger0, attempts := [] } n.subscriptionId n.crisisId hrow).mp hmem
    cases this

theorem immediate_sweep_exactly_once_witness :
    pairCount (processImmediateNotifications 0 [crisisForAlert] [subAll]
        (fun _ _ => true) []).ledger "s1" "cr1" = 1 ∧
    (processImmediateNotifications 0 [crisisForAlert] [subAll] (fun _ _ => true)
        (processImmediateNotifications 0 [crisisForAlert] [subAll]
          (fun _ _ => true) []).ledger).attempts = [] ∧
    ("s1", "cr1") ∉ (processImmediateNotifications 0 [crisisForAlert] [subAll]
        (fun _ _ => true) [failedRowFixture]).attempts :=
  ⟨(immediate_sweep_exactly_once 0 [crisisForAlert] [subAll] (fun _ _ => true)
      []).2.2.2.1 crisisForAlert (by decide) subAll (by decide) (by decide) (by decide),
   (immediate_sweep_exactly_once 0 [crisisForAlert] [subAll] (fun _ _ => true) []).2.1,
   (immediate_sweep_exactly_once 0 [crisisForAlert] [subAll] (fun _ _ => true)
      [failedRowFixture]).2.2.2.2 failedRowFixture (by decide)⟩

/-- C6 fails as stated: a classifier failure during webhook processing is
swallowed by the inner catch, and the WebhookEvent is finalised as SUCCESS
with the created Event linked, no error text, and no failure-counter
increment — not as FAILED. -/
theorem classifier_failure_marked_success :
    processWebhookEvent webhookPlain (some eventDataFixture) "ev1" (.ok ())
        (fun _ => .error "classifier down") =
      { status := .SUCCESS, error := none, eventId := some "ev1"
        eventCreated := true, classifierCalled := true, failedEventsDelta := 0 } ∧
    WebhookEventStatus.SUCCESS ≠ WebhookEventStatus.FAILED := by
  exact ⟨rfl, by decide⟩

/-- C6 (amended): when the keyword and region filters pass, a classifier
failure is swallowed: the WebhookEvent terminates SUCCESS with the created
Event linked, no error recorded and no failure-counter increment; the FAILED
status with captured error text and a failure-counter increment arises only
from errors outside the classifier call, such as a failure persisting the
Event row. -/
theorem webhook_classifier_failure_swallowed :
    ∀ (webhook : Webhook) (d : EventData) (newEventId : String)
      (classify : String → Except String AnalysisResult) (msg pmsg : String),
      (webhook.keywords.length > 0 &&
        !(webhook.keywords.any (fun k =>
            jsIncludes (jsToLower (d.title ++ " " ++ d.description)) (jsToLower k)))) = false →
      (webhook.regions.length > 0 && !(d.location.getD "").isEmpty &&
        !(webhook.regions.any (fun r =>
            jsIncludes (jsToLower (d.location.getD "")) (jsToLower r)))) = false →
      (classify (d.title ++ "\n\n" ++ d.description) = .error msg →
        processWebhookEvent webhook (some d) newEventId (.ok ()) classify =
          { status := .SUCCESS, error := none, eventId := some newEventId
            eventCreated := true, classifierCalled := true, failedEventsDelta := 0 }) ∧
      (processWebhookEvent webhook (some d) newEventId (.error pmsg) classify =
        { status := .FAILED, error := some pmsg, eventId := none
          eventCreated := false, classifierCalled := false, failedEventsDelta := 1 }) := by
  intro webhook d newEventId classify msg pmsg hkw hrg
  constructor
  · intro hcl
    simp [processWebhookEvent, hkw, hrg, hcl]
  · simp [processWebhookEvent, hkw, hrg]

theorem webhook_classifier_failure_swallowed_witness :
    processWebhookEvent webhookPlain (some eventDataFixture) "evA" (.ok ())
        (fun _ => .error "timeout") =
      { status := .SUCCESS, error := none, eventId := some "evA"
        eventCreated := true, classifierCalled := true, failedEventsDelta := 0 } ∧
    processWebhookEvent webhookPlain (some eventDataFixture) "evB"
        (.error "db down") (fun _ => .error "timeout") =
      { status := .FAILED, error := some "db down", eventId := none
        eventCreated := false, classifierCalled := false, failedEventsDelta := 1 } :=
  ⟨(webhook_classifier_failure_swallowed webhookPlain eventDataFixture "evA"
      (fun _ => .error "timeout") "timeout" "db down" (by decide) (by decide)).1 rfl,
   (webhook_classifier_failure_swallowed webhookPlain eventDataFixture "evB"
      (fun _ => .error "timeout") "timeout" "db down" (by decide) (by decide)).2⟩

/-- C9 fails as stated: the minimum-severity policy is applied only after the
classifier has been invoked (it needs the classified severity), and a signal
failing it terminates as SUCCESS with the reason in the error field — not as
SKIPPED before spending classifier budget. -/
theorem min_severity_checked_after_classifier :
    processWebhookEvent webhookMinHigh (some eventDataFixture) "ev9" (.ok ())
        (fun _ => .ok analysisLow) =
      { status := .SUCCESS, error := some "Severity LOW below threshold HIGH"
        eventId := some "ev9", eventCreated := true, classifierCalled := true
        failedEventsDelta := 0 } ∧
    WebhookEventStatus.SUCCESS ≠ WebhookEventStatus.SKIPPED := by
  exact ⟨rfl, by decide⟩

/-- C9 (amended): the keyword and region policies are decided before the
classifier is invoked and terminate the WebhookEvent as SKIPPED with the
reason recorded, with no Event created; the minimum-severity policy is
decided after classification, and a below-threshold severity terminates the
WebhookEvent as SUCCESS with the reason recorded in the error field and the
Event still created. -/
theorem filter_stage_order :
    ∀ (webhook : Webhook) (d : EventData) (newEventId : String)
      (persistEvent : Except String Unit)
      (classify : String → Except String AnalysisResult)
      (analysis : AnalysisResult) (minSev : String),
      ((webhook.keywords.length > 0 &&
          !(webhook.keywords.any (fun k =>
              jsIncludes (jsToLower (d.title ++ " " ++ d.description)) (jsToLower k)))) = true →
        processWebhookEvent webhook (some d) newEventId persistEvent classify =
          { status := .SKIPPED, error := some "No matching keywords"
            eventId := none, eventCreated := false, classifierCalled := false
            failedEventsDelta := 0 }) ∧
      ((webhook.keywords.length > 0 &&
          !(webhook.keywords.any (fun k =>
              jsIncludes (jsToLower (d.title ++ " " ++ d.description)) (jsToLower k)))) = false →
        (webhook.regions.length > 0 && !(d.location.getD "").isEmpty &&
          !(webhook.regions.any (fun r =>
              jsIncludes (jsToLower (d.location.getD "")) (jsToLower r)))) = true →
        processWebhookEvent webhook (some d) newEventId persistEvent classify =
          { status := .SKIPPED, error := some "No matching regions"
            eventId := none, eventCreated := false, classifierCalled := false
            failedEventsDelta := 0 }) ∧
      ((webhook.keywords.length > 0 &&
          !(webhook.keywords.any (fun k =>
              jsIncludes (jsToLower (d.title ++ " " ++ d.description)) (jsToLower k)))) = false →
        (webhook.regions.length > 0 && !(d.location.getD "").isEmpty &&
          !(webhook.regions.any (fun r =>
              jsIncludes (jsToLower (d.location.getD "")) (jsToLower r)))) = false →
        classify (d.title ++ "\n\n" ++ d.description) = .ok analysis →
        webhook.minSeverity = some minSev →
        jsIndexOf webhookSeverityOrder analysis.severity <
          jsIndexOf webhookSeverityOrder minSev →
        processWebhookEvent webhook (some d) newEventId (.ok ()) classify =
          { status := .SUCCESS
            error := some ("Severity " ++ analysis.severity ++ " below threshold " ++ minSev)
            eventId := some newEventId, eventCreated := true, classifierCalled := true
            failedEventsDelta := 0 }) := by
  intro webhook d newEventId persistEvent classify analysis minSev
  refine ⟨?_, ?_, ?_⟩
  · intro hkw
    simp [processWebhookEvent, hkw]
  · intro hkw hrg
    simp [processWebhookEvent, hkw, hrg]
  · intro hkw hrg hcl hmin hlt
    simp [processWebhookEvent, hkw, hrg, hcl, hmin, if_pos hlt]

theorem filter_stage_order_witness :
    processWebhookEvent webhookMinHigh (some eventDataFixture) "ev9b" (.ok ())
        (fun _ => .ok analysisLow) =
      { status := .SUCCESS, error := some "Severity LOW below threshold HIGH"
        eventId := some "ev9b", eventCreated := true, classifierCalled := true
        failedEventsDelta := 0 } :=
  (filter_stage_order webhookMinHigh eventDataFixture "ev9b" (.ok ())
      (fun _ => .ok analysisLow) analysisLow "HIGH").2.2 (by decide) (by decide) rfl rfl
    (by decide)

/-- C7 fails as stated: a non-verifying signature whose byte length differs
from the 64-character expected digest makes `crypto.timingSafeEqual` throw,
so the request fails with a generic length error, not with the
InvalidSignature (401) rejection; the payload is still not stored. -/
theorem bad_length_signature_not_401 :
    receiveWebhook [recvWebhook] [] "we1" "wh_recv" rawBodyFixture (some "abc") =
      { outcome := .rejected .timingSafeLengthError, store := [], totalEventsDelta := 0 } ∧
    RecvOutcome.rejected .timingSafeLengthError ≠ RecvOutcome.rejected .invalidSignature := by
  exact ⟨by decide, by decide⟩

/-- C7 (amended): at the receive endpoint, with the endpoint registered and
active and the body well-formed JSON: a request with no signature header is
accepted and stored as a PENDING WebhookEvent; a signature that (after
stripping the optional prefix) has the expected byte length but does not
verify is rejected with InvalidSignature (401) and nothing is stored; a
signature of any other byte length is rejected with the constant-time
comparison's length error (a generic 500, not 401) and nothing is stored. -/
theorem receive_signature_enforcement :
    ∀ (webhooks : List Webhook) (store : List StoredWebhookEvent)
      (newEventId endpoint rawBody : String) (webhook : Webhook) (body : Json)
      (sig : String),
      webhooks.find? (fun w => w.endpoint == endpoint) = some webhook →
      webhook.isActive = true →
      jsonParse rawBody = some body →
      (receiveWebhook webhooks store newEventId endpoint rawBody none =
        { outcome := .accepted newEventId
          store := store ++
            [{ id := newEventId, webhookId := webhook.id
               payloadStringified := stringifyJson body, status := .PENDING }]
          totalEventsDelta := 1 }) ∧
      ((strToBytes (hmacSha256Hex webhook.secret (stringifyJson body))).length =
          (strToBytes (jsReplaceFirst sig "sha256=")).length →
        strToBytes (hmacSha256Hex webhook.secret (stringifyJson body)) ≠
          strToBytes (jsReplaceFirst sig "sha256=") →
        receiveWebhook webhooks store newEventId endpoint rawBody (some sig) =
          { outcome := .rejected .invalidSignature, store := store, totalEventsDelta := 0 }) ∧
      ((strToBytes (hmacSha256Hex webhook.secret (stringifyJson body))).length ≠
          (strToBytes (jsReplaceFirst sig "sha256=")).length →
        receiveWebhook webhooks store newEventId endpoint rawBody (some sig) =
          { outcome := .rejected .timingSafeLengthError, store := store
            totalEventsDelta := 0 }) := by
  intro webhooks store newEventId endpoint rawBody webhook body sig hfind hact hparse
  refine ⟨?_, ?_, ?_⟩
  · simp [receiveWebhook, hfind, hact, hparse]
  · intro hlen hne
    have htse : timingSafeEqualStr (hmacSha256Hex webhook.secret (stringifyJson body))
        (jsReplaceFirst sig "sha256=") = some false := by
      rw [timingSafeEqualStr, if_pos hlen, decide_eq_false hne]
    simp [receiveWebhook, hfind, hact, hparse, htse]
  · intro hlen
    have htse : timingSafeEqualStr (hmacSha256Hex webhook.secret (stringifyJson body))
        (jsReplaceFirst sig "sha256=") = none := by
      rw [timingSafeEqualStr, if_neg hlen]
    simp [receiveWebhook, hfind, hact, hparse, htse]

theorem receive_signature_enforcement_witness :
    receiveWebhook [recvWebhook] [] "we1" "wh_recv" rawBodyFixture none =
      { outcome := .accepted "we1"
        store := [{ id := "we1", webhookId := "w7"
                    payloadStringified := stringifyJson parsedBodyFixture
                    status := .PENDING }]
        totalEventsDelta := 1 } ∧
    receiveWebhook [recvWebhook] [] "we1" "wh_recv" rawBodyFixture (some sig64zeros) =
      { outcome := .rejected .invalidSignature, store := [], totalEventsDelta := 0 } ∧
    receiveWebhook [recvWebhook] [] "we1" "wh_recv" rawBodyFixture (some "abc") =
      { outcome := .rejected .timingSafeLengthError, store := [], totalEventsDelta := 0 } :=
  ⟨(receive_signature_enforcement [recvWebhook] [] "we1" "wh_recv" rawBodyFixture
      recvWebhook parsedBodyFixture "unused" rfl rfl rfl).1,
   (receive_signature_enforcement [recvWebhook] [] "we1" "wh_recv" rawBodyFixture
      recvWebhook parsedBodyFixture sig64zeros rfl rfl rfl).2.1 (by decide) (by decide),
   (receive_signature_enforcement [recvWebhook] [] "we1" "wh_recv" rawBodyFixture
      recvWebhook parsedBodyFixture "abc" rfl rfl rfl).2.2 (by decide)⟩

/-- C8 fails as stated: the HMAC the endpoint verifies is computed over
`JSON.stringify(req.body)`, the re-serialisation of the parsed body, not over
the raw request body bytes.  For a raw body containing formatting whitespace
the two differ, and a request signed bit-exactly over the raw body bytes is
rejected. -/
theorem signature_not_over_raw_bytes :
    receiveWebhook [recvWebhook] [] "we1" "wh_recv" rawBodyFixture (some sigOverRawBytes) =
      { outcome := .rejected .invalidSignature, store := [], totalEventsDelta := 0 } ∧
    (jsonParse rawBodyFixture).map stringifyJson ≠ some rawBodyFixture := by
  constructor
  · decide
  · intro h
    have : stringifyJson parsedBodyFixture = rawBodyFixture := by
      have hp : jsonParse rawBodyFixture = some parsedBodyFixture := rfl
      rw [hp] at h
      exact Option.some.inj h
    exact absurd this (by decide)

/-- C8 (amended): the signature the receive endpoint accepts is HMAC-SHA256,
keyed by the endpoint's secret, over `JSON.stringify` of the parsed request
body, hex-encoded, compared after stripping an optional `sha256=` prefix: a
header whose stripped value equals that digest is accepted (and the PENDING
WebhookEvent stored), and any accepted header's stripped value has exactly
that digest's bytes.  This coincides with HMAC over the raw body bytes only
when the raw body is byte-identical to its JSON re-serialisation. -/
theorem signature_over_stringified_body :
    ∀ (webhooks : List Webhook) (store : List StoredWebhookEvent)
      (newEventId endpoint rawBody : String) (webhook : Webhook) (body : Json)
      (sig : String),
      webhooks.find? (fun w => w.endpoint == endpoint) = some webhook →
      webhook.isActive = true →
      jsonParse rawBody = some body →
      (jsReplaceFirst sig "sha256=" = hmacSha256Hex webhook.secret (stringifyJson body) →
        receiveWebhook webhooks store newEventId endpoint rawBody (some sig) =
          { outcome := .accepted newEventId
            store := store ++
              [{ id := newEventId, webhookId := webhook.id
                 payloadStringified := stringifyJson body, status := .PENDING }]
            totalEventsDelta := 1 }) ∧
      ((receiveWebhook webhooks store newEventId endpoint rawBody (some sig)).outcome =
          .accepted newEventId →
        strToBytes (jsReplaceFirst sig "sha256=") =
          strToBytes (hmacSha256Hex webhook.secret (stringifyJson body))) := by
  intro webhooks store newEventId endpoint rawBody webhook body sig hfind hact hparse
  constructor
  · intro hsig
    have htse : timingSafeEqualStr (hmacSha256Hex webhook.secret (stringifyJson body))
        (jsReplaceFirst sig "sha256=") = some true := by
      rw [hsig, timingSafeEqualStr, if_pos rfl, decide_eq_true rfl]
    simp [receiveWebhook, hfind, hact, hparse, htse]
  · intro hacc
    rcases htse : timingSafeEqualStr (hmacSha256Hex webhook.secret (stringifyJson body))
        (jsReplaceFirst sig "sha256=") with _ | b
    · rw [receiveWebhook, hfind] at hacc
      simp [hact, hparse, htse] at hacc
    · cases b with
      | false =>
        rw [receiveWebhook, hfind] at hacc
        simp [hact, hparse, htse] at hacc
      | true =>
        rw [timingSafeEqualStr] at htse
        by_cases hlen : (strToBytes (hmacSha256Hex webhook.secret (stringifyJson body))).length =
            (strToBytes (jsReplaceFirst sig "sha256=")).length
        · rw [if_pos hlen] at htse
          have := Option.some.inj htse
          exact (decide_eq_true_eq.mp this).symm
        · rw [if_neg hlen] at htse
          cases htse

theorem signature_over_stringified_body_witness :
    receiveWebhook [recvWebhook] [] "we1" "wh_recv" rawBodyFixture
        (some ("sha256=" ++ hmacSha256Hex "whsec_demo" (stringifyJson parsedBodyFixture))) =
      { outcome := .accepted "we1"
        store := [{ id := "we1", webhookId := "w7"
                    payloadStringified := stringifyJson parsedBodyFixture
                    status := .PENDING }]
        totalEventsDelta := 1 } :=
  (signature_over_stringified_body [recvWebhook] [] "we1" "wh_recv" rawBodyFixture
      recvWebhook parsedBodyFixture
      ("sha256=" ++ hmacSha256Hex "whsec_demo" (stringifyJson parsedBodyFixture))
      rfl rfl rfl).1 (by decide)
